import Mathlib

/-!
Verification of the envelope client (Go, packages `solprogram` / `chainsol`).

This file shallowly embeds the parts of the source that the checked claims
are about: the Anchor-style instruction discriminators (SHA-256 based), the
instruction-data builders for the `create` family of operations, the account
decoders (`parseUserStateData`, `parseEnvelopeData`, `parseClaimRecordData`),
the create-envelope HTTP handler's instruction assembly, the signed-transaction
submission check, the RPC error classifier (`ExtractErrorCode`,
`ParseSolanaError`), and the confirmation-polling loop.

Bytes are modelled as `Nat` values (< 256 on all real inputs); byte strings as
`List Nat`.  Fallible Go code returns `Except String _`; Go code that can
panic on an out-of-range slice is modelled in `Option`, where `none` marks the
panic.  Calls into the third-party solana-go library (base58 decoding, PDA
derivation, transaction wire (un)marshalling, RPC transport) are abstracted:
builders receive already-decoded 32-byte public keys, the submission path
receives the outcome of the library's transaction parse, and the polling loop
receives the per-attempt RPC outcome as an oracle.
-/

/- ---------------------------------------------------------------------- -/
/- SHA-256 over byte lists, modelling Go crypto/sha256.Sum256.            -/
/- ---------------------------------------------------------------------- -/

/-- Right rotation of a 32-bit word. -/
def rotr32 (x n : Nat) : Nat :=
  ((x >>> n) ||| (x <<< (32 - n))) % 4294967296

/-- The 64 SHA-256 round constants (FIPS 180-4, written in decimal). -/
def shaK : List Nat :=
  [1116352408, 1899447441, 3049323471, 3921009573, 961987163,
   1508970993, 2453635748, 2870763221, 3624381080, 310598401,
   607225278, 1426881987, 1925078388, 2162078206, 2614888103,
   3248222580, 3835390401, 4022224774, 264347078, 604807628,
   770255983, 1249150122, 1555081692, 1996064986, 2554220882,
   2821834349, 2952996808, 3210313671, 3336571891, 3584528711,
   113926993, 338241895, 666307205, 773529912, 1294757372,
   1396182291, 1695183700, 1986661051, 2177026350, 2456956037,
   2730485921, 2820302411, 3259730800, 3345764771, 3516065817,
   3600352804, 4094571909, 275423344, 430227734, 506948616,
   659060556, 883997877, 958139571, 1322822218, 1537002063,
   1747873779, 1955562222, 2024104815, 2227730452, 2361852424,
   2428436474, 2756734187, 3204031479, 3329325298]

/-- The SHA-256 initial hash state (decimal). -/
def shaH0 : List Nat :=
  [1779033703, 3144134277, 1013904242, 2773480762,
   1359893119, 2600822924, 528734635, 1541459225]

/-- Big-endian 4-byte groups to 32-bit words. -/
def bytesToWords : List Nat → List Nat
  | b0 :: b1 :: b2 :: b3 :: rest =>
      (b0 * 16777216 + b1 * 65536 + b2 * 256 + b3) :: bytesToWords rest
  | _ => []

/-- Extend the 16 message words to 64 schedule words (48 steps). -/
def shaExtend : Nat → List Nat → List Nat
  | 0, w => w
  | fuel + 1, w =>
      let i := w.length
      let w15 := w.getD (i - 15) 0
      let w2 := w.getD (i - 2) 0
      let s0 := (rotr32 w15 7) ^^^ (rotr32 w15 18) ^^^ (w15 >>> 3)
      let s1 := (rotr32 w2 17) ^^^ (rotr32 w2 19) ^^^ (w2 >>> 10)
      let nw := (w.getD (i - 16) 0 + s0 + w.getD (i - 7) 0 + s1) % 4294967296
      shaExtend fuel (w ++ [nw])

/-- One compression round on the state `[a,b,c,d,e,f,g,h]`. -/
def shaRound (st : List Nat) (k w : Nat) : List Nat :=
  match st with
  | [a, b, c, d, e, f, g, h] =>
      let s1 := (rotr32 e 6) ^^^ (rotr32 e 11) ^^^ (rotr32 e 25)
      let ch := (e &&& f) ^^^ ((4294967295 - e) &&& g)
      let t1 := (h + s1 + ch + k + w) % 4294967296
      let s0 := (rotr32 a 2) ^^^ (rotr32 a 13) ^^^ (rotr32 a 22)
      let mj := (a &&& b) ^^^ (a &&& c) ^^^ (b &&& c)
      let t2 := (s0 + mj) % 4294967296
      [(t1 + t2) % 4294967296, a, b, c, (d + t1) % 4294967296, e, f, g]
  | other => other

/-- Run the 64 compression rounds. -/
def shaCompressRounds : List Nat → List Nat → List Nat → List Nat
  | st, k :: ks, w :: ws => shaCompressRounds (shaRound st k w) ks ws
  | st, _, _ => st

/-- Compress one 64-byte block into the running hash state. -/
def shaCompress (h : List Nat) (block : List Nat) : List Nat :=
  let w := shaExtend 48 (bytesToWords block)
  let st := shaCompressRounds h shaK w
  (List.zip h st).map (fun p => (p.1 + p.2) % 4294967296)

/-- Fold the compression over all 64-byte blocks (fuel-driven). -/
def shaBlocks : Nat → List Nat → List Nat → List Nat
  | 0, h, _ => h
  | _, h, [] => h
  | fuel + 1, h, msg => shaBlocks fuel (shaCompress h (msg.take 64)) (msg.drop 64)

/-- SHA-256 padding: `0x80`, zeros to 56 mod 64, then the 64-bit big-endian
bit length. -/
def shaPad (msg : List Nat) : List Nat :=
  let l := msg.length
  let padZeros := (55 + 64 - (l % 64)) % 64
  let bitLen := l * 8
  msg ++ [0x80] ++ List.replicate padZeros 0 ++
    [(bitLen >>> 56) % 256, (bitLen >>> 48) % 256, (bitLen >>> 40) % 256,
     (bitLen >>> 32) % 256, (bitLen >>> 24) % 256, (bitLen >>> 16) % 256,
     (bitLen >>> 8) % 256, bitLen % 256]

/-- 32-bit words back to big-endian bytes. -/
def wordsToBytes : List Nat → List Nat
  | [] => []
  | w :: ws =>
      (w >>> 24) % 256 :: (w >>> 16) % 256 :: (w >>> 8) % 256 :: w % 256 ::
        wordsToBytes ws

/-- SHA-256 digest (32 bytes) of a byte list. -/
def sha256 (msg : List Nat) : List Nat :=
  let padded := shaPad msg
  wordsToBytes (shaBlocks (padded.length) shaH0 padded)

/-- UTF-8 bytes of a string; for the ASCII operation names used here this is
exactly the Go `[]byte(s)` conversion. -/
def strBytes (s : String) : List Nat := s.data.map Char.toNat

/- ---------------------------------------------------------------------- -/
/- Discriminators (solprogram: errors.go section 2, instructions.go).     -/
/- ---------------------------------------------------------------------- -/

/-- `getAnchorDiscriminator` from the USDC client: the first 8 bytes of
`sha256("global:" + methodName)`. -/
def getAnchorDiscriminator (methodName : String) : List Nat :=
  (sha256 (strBytes ("global:" ++ methodName))).take 8

/-- `getDiscriminator` from instructions.go: the first 8 bytes of
`sha256(name)` where the caller passes the full `"global:..."` string. -/
def getDiscriminator (name : String) : List Nat :=
  (sha256 (strBytes name)).take 8

def DiscriminatorInitUserState : List Nat := getAnchorDiscriminator "init_user_state"
def DiscriminatorCreate : List Nat := getAnchorDiscriminator "create"
def DiscriminatorClaim : List Nat := getAnchorDiscriminator "claim"
def DiscriminatorRefund : List Nat := getAnchorDiscriminator "refund"
def DiscriminatorCancel : List Nat := getAnchorDiscriminator "cancel"
def DiscriminatorClose : List Nat := getAnchorDiscriminator "close"

def InitUserStateDisc : List Nat := getDiscriminator "global:init_user_state"
def CreateDisc : List Nat := getDiscriminator "global:create"
def ClaimDisc : List Nat := getDiscriminator "global:claim"
def RefundDisc : List Nat := getDiscriminator "global:refund"

/- ---------------------------------------------------------------------- -/
/- Little-endian u64 encoding / decoding (binary.LittleEndian).           -/
/- ---------------------------------------------------------------------- -/

/-- `binary.LittleEndian.PutUint64`: 8 little-endian bytes of a u64. -/
def le64 (n : Nat) : List Nat :=
  [n % 256, (n >>> 8) % 256, (n >>> 16) % 256, (n >>> 24) % 256,
   (n >>> 32) % 256, (n >>> 40) % 256, (n >>> 48) % 256, (n >>> 56) % 256]

/-- `binary.LittleEndian.Uint64` on an 8-byte slice. -/
def leU64 (bs : List Nat) : Nat :=
  bs.foldr (fun b acc => b + 256 * acc) 0

/-- A Go `int64` read of a u64 bit pattern. -/
def toInt64 (n : Nat) : Int :=
  if n < 9223372036854775808 then (n : Int) else (n : Int) - 18446744073709551616

/-- A 32-byte public identity, already base58-decoded. -/
abbrev Pubkey := List Nat

/- ---------------------------------------------------------------------- -/
/- Instruction-data builders for the create family.                       -/
/- ---------------------------------------------------------------------- -/

/-- `EnvelopeType` (part_002): variant selector for an envelope. -/
inductive EnvelopeType
  | directFixed
  | groupFixed
  | groupRandom
deriving DecidableEq

/-- The on-wire tag byte of an `EnvelopeType` (`uint8(params.EnvelopeType.Type)`). -/
def EnvelopeType.val : EnvelopeType → Nat
  | .directFixed => 0
  | .groupFixed => 1
  | .groupRandom => 2

/-- `EnvelopeTypeData` (part_002): variant plus the optional allowed address
(present only for DirectFixed). -/
structure EnvelopeTypeData where
  type : EnvelopeType
  allowedAddress : Option Pubkey
deriving DecidableEq

/-- `CreateEnvelopeParams` (part_002). -/
structure CreateEnvelopeParams where
  envelopeType : EnvelopeTypeData
  totalAmount : Nat
  totalUsers : Nat
  expirySeconds : Nat
deriving DecidableEq

/-- Instruction data built by `USDCEnvelopeClient.BuildCreateEnvelopeInstruction`
(errors.go section 2): discriminator, variant byte, optional 32-byte allowed
address (DirectFixed only, error when absent), then total amount, total users
and expiry seconds as little-endian u64.  PDA derivation does not contribute
to the data bytes and is not modelled. -/
def usdcBuildCreateEnvelopeData (params : CreateEnvelopeParams) :
    Except String (List Nat) :=
  let head := DiscriminatorCreate ++ [params.envelopeType.type.val]
  let tail := le64 params.totalAmount ++ le64 params.totalUsers ++
    le64 params.expirySeconds
  match params.envelopeType.type, params.envelopeType.allowedAddress with
  | .directFixed, none => .error "allowed_address required for DirectFixed"
  | .directFixed, some pk => .ok (head ++ pk ++ tail)
  | _, _ => .ok (head ++ tail)

/-- Instruction data built by the package-level `BuildCreateEnvelopeInstruction`
(instructions.go): hard-coded IDL discriminator, variant data (1 byte, or
1 byte plus 32-byte allowed address for DirectFixed), then total amount,
total users and expiry hours as little-endian u64.  The envelope type is the
request string enum; an unknown string is an error, and the allowed address
arrives already base58-decoded (`MustPublicKeyFromBase58` is a library call). -/
def buildCreateEnvelopeData (envelopeType : String)
    (totalAmount totalUsers expiryHours : Nat)
    (allowedAddress : Option Pubkey) : Except String (List Nat) :=
  let discriminator : List Nat := [24, 30, 200, 40, 5, 28, 7, 119]
  let tail := le64 totalAmount ++ le64 totalUsers ++ le64 expiryHours
  if envelopeType = "direct_fixed" then
    match allowedAddress with
    | none => .error "allowed_address required for DirectFixed"
    | some pk => .ok (discriminator ++ 0 :: pk ++ tail)
  else if envelopeType = "group_fixed" then
    .ok (discriminator ++ 1 :: tail)
  else if envelopeType = "group_random" then
    .ok (discriminator ++ 2 :: tail)
  else
    .error ("invalid envelope type: " ++ envelopeType)

/-- Instruction data of `BuildCreateInstruction` (part_003/part_002, simplified
DirectFixed-only builder): discriminator, tag 0, the user's own key as allowed
address, amount and expiry hours — no total-users field. -/
def buildCreateInstructionData (user : Pubkey) (amount expiryHours : Nat) :
    List Nat :=
  CreateDisc ++ 0 :: user ++ le64 amount ++ le64 expiryHours

/-- Instruction data of `BuildCreateDirectFixedInstruction` (part_003):
discriminator, tag 0, allowed address, amount and expiry hours — no
total-users field. -/
def buildCreateDirectFixedData (allowedPubkey : Pubkey)
    (amount expiryHours : Nat) : List Nat :=
  CreateDisc ++ 0 :: allowedPubkey ++ le64 amount ++ le64 expiryHours

/-- Instruction data of `BuildCreateGroupFixedInstruction` (part_003):
discriminator, tag 1, then total users, amount per user and expiry hours. -/
def buildCreateGroupFixedData (totalUsers amountPerUser expiryHours : Nat) :
    List Nat :=
  CreateDisc ++ 1 :: (le64 totalUsers ++ le64 amountPerUser ++ le64 expiryHours)

/-- Instruction data of `BuildCreateGroupRandomInstruction` (part_003):
discriminator, tag 2, then total amount, max claimers and expiry hours. -/
def buildCreateGroupRandomData (totalAmount maxClaimers expiryHours : Nat) :
    List Nat :=
  CreateDisc ++ 2 :: (le64 totalAmount ++ le64 maxClaimers ++ le64 expiryHours)

/-- Instruction data of `BuildInitUserStateInstruction` (both variants use
only the discriminator). -/
def buildInitUserStateData : List Nat := DiscriminatorInitUserState

/-- Instruction data of `BuildClaimInstruction`: discriminator only. -/
def buildClaimData : List Nat := DiscriminatorClaim

/-- Instruction data of `BuildRefundInstruction`: discriminator only. -/
def buildRefundData : List Nat := DiscriminatorRefund

/-- Instruction data of `BuildCancelInstruction`: discriminator only. -/
def buildCancelData : List Nat := DiscriminatorCancel

/-- Instruction data of `BuildCloseEnvelopeInstruction`: discriminator only. -/
def buildCloseData : List Nat := DiscriminatorClose

/-- The create payload layout asserted by the specification (written from the
spec's words, for comparison with the builders): discriminator, variant tag,
the 32-byte allowed-claimer identity for DirectFixed only, then total amount,
total claimer slots and expiry duration as little-endian u64. -/
def createPayloadSpec (tag : Nat) (allowed : Option Pubkey)
    (amount slots expiry : Nat) : List Nat :=
  getAnchorDiscriminator "create" ++ [tag] ++
    (match allowed with | some pk => pk | none => []) ++
    le64 amount ++ le64 slots ++ le64 expiry

/- ---------------------------------------------------------------------- -/
/- Account decoders (errors.go section 3).                                -/
/- ---------------------------------------------------------------------- -/

/-- A Go slice expression `data[a:b]`: defined only when `a ≤ b ≤ len(data)`,
otherwise the program panics, modelled as `none`. -/
def goSlice (data : List Nat) (a b : Nat) : Option (List Nat) :=
  if a ≤ b ∧ b ≤ data.length then some ((data.take b).drop a) else none

/-- A Go index expression `data[i]`: panics (`none`) when out of range. -/
def goIndex (data : List Nat) (i : Nat) : Option Nat :=
  data.get? i

/-- `UserState` (part_002). -/
structure UserState where
  owner : Pubkey
  lastEnvelopeID : Nat
deriving DecidableEq

/-- `EnvelopeInfo` as produced by `parseEnvelopeData`.  The Go struct renders
the allowed address as a base58 string and derives `ExpiryTime`/`IsExpired`
from the wall clock; here the raw 32 address bytes and the decoded i64
timestamp are kept, the clock-dependent views are not part of the record. -/
structure EnvelopeInfo where
  owner : Pubkey
  envelopeID : Nat
  envelopeType : String
  allowedAddress : Option Pubkey
  totalAmount : Nat
  totalUsers : Nat
  withdrawnAmount : Nat
  claimedCount : Nat
  remainingAmount : Nat
  isCancelled : Bool
  expiryTimestamp : Int
deriving DecidableEq

/-- `ClaimRecord` (part_002). -/
structure ClaimRecord where
  claimer : Pubkey
  envelopeID : Nat
  amount : Nat
  claimedAt : Int
deriving DecidableEq

/-- `parseUserStateData`: length guard at 48, then owner (32 bytes at offset 8)
and last envelope id (LE u64 at offset 40).  `none` marks an out-of-range
access (a Go panic); `some (.error _)` is the returned decode error. -/
def parseUserStateData (data : List Nat) : Option (Except String UserState) :=
  if data.length < 48 then
    some (.error ("invalid user state data length: " ++ toString data.length))
  else do
    let owner ← goSlice data 8 (8 + 32)
    let idb ← goSlice data 40 (40 + 8)
    pure (.ok { owner := owner, lastEnvelopeID := leU64 idb })

/-- The numeric-fields suffix of `parseEnvelopeData`: from `off` read
total amount, total users, withdrawn amount, claimed count, expiry (each an
8-byte LE field) and the `is_cancelled` byte.  Remaining amount is the Go
`uint64` subtraction `totalAmount - withdrawnAmount` (wrapping). -/
def parseEnvelopeTail (data : List Nat) (off : Nat) (owner : Pubkey)
    (envelopeID : Nat) (name : String) (allowed : Option Pubkey) :
    Option (Except String EnvelopeInfo) := do
  let ta ← goSlice data off (off + 8)
  let tu ← goSlice data (off + 8) (off + 16)
  let wd ← goSlice data (off + 16) (off + 24)
  let cc ← goSlice data (off + 24) (off + 32)
  let ex ← goSlice data (off + 32) (off + 40)
  let ic ← goIndex data (off + 40)
  let totalAmount := leU64 ta
  let withdrawnAmount := leU64 wd
  pure (.ok
    { owner := owner
      envelopeID := envelopeID
      envelopeType := name
      allowedAddress := allowed
      totalAmount := totalAmount
      totalUsers := leU64 tu
      withdrawnAmount := withdrawnAmount
      claimedCount := leU64 cc
      remainingAmount :=
        (totalAmount + 18446744073709551616 - withdrawnAmount) %
          18446744073709551616
      isCancelled := ic ≠ 0
      expiryTimestamp := toInt64 (leU64 ex) })

/-- `parseEnvelopeData`: length guard at 120 (the source's claimed minimum),
owner at 8, envelope id at 40, variant tag at 48.  Tag 0 (DirectFixed) reads a
32-byte allowed address and continues at offset 49 + 32; tags 1 and 2 skip the
source's hard-coded 39 filler bytes and continue at offset 49 + 39; any other
tag is a decode error. -/
def parseEnvelopeData (data : List Nat) : Option (Except String EnvelopeInfo) :=
  if data.length < 120 then
    some (.error ("invalid envelope data length: " ++ toString data.length))
  else do
    let owner ← goSlice data 8 (8 + 32)
    let idb ← goSlice data 40 (40 + 8)
    let tag ← goIndex data 48
    let envelopeID := leU64 idb
    if tag = 0 then do
      let allowed ← goSlice data 49 (49 + 32)
      parseEnvelopeTail data (49 + 32) owner envelopeID "DirectFixed"
        (some allowed)
    else if tag = 1 then
      parseEnvelopeTail data (49 + 39) owner envelopeID "GroupFixed" none
    else if tag = 2 then
      parseEnvelopeTail data (49 + 39) owner envelopeID "GroupRandom" none
    else
      pure (.error ("unknown envelope type: " ++ toString tag))

/-- `parseClaimRecordData`: length guard at 64, then claimer (32 bytes at 8),
envelope id (40), amount (48) and claimed-at timestamp (56). -/
def parseClaimRecordData (data : List Nat) : Option (Except String ClaimRecord) :=
  if data.length < 64 then
    some (.error ("invalid claim record data length: " ++ toString data.length))
  else do
    let claimer ← goSlice data 8 (8 + 32)
    let idb ← goSlice data 40 (40 + 8)
    let am ← goSlice data 48 (48 + 8)
    let ca ← goSlice data 56 (56 + 8)
    pure (.ok
      { claimer := claimer
        envelopeID := leU64 idb
        amount := leU64 am
        claimedAt := toInt64 (leU64 ca) })

/- ---------------------------------------------------------------------- -/
/- Create-envelope handler (part_004) and user-state existence check.     -/
/- ---------------------------------------------------------------------- -/

/-- `CheckUserStateExists` (instructions.go / part_003): the account lookup
result is `none` for an RPC error or an absent account; data shorter than 48
bytes also counts as non-existent, otherwise the last envelope id is read at
bytes 40..48. -/
def checkUserStateExists (acct : Option (List Nat)) : Bool × Nat :=
  match acct with
  | none => (false, 0)
  | some data =>
      if data.length < 48 then (false, 0)
      else (true, leU64 ((data.take 48).drop 40))

/-- An instruction assembled by the create handler: either the
init-user-state instruction or a create instruction carrying the predicted
envelope id (used for PDA derivation) and its data bytes. -/
inductive SolInstruction
  | initUserState
  | create (envelopeID : Nat) (data : List Nat)
deriving DecidableEq

/-- The shape of a handler instruction, with the payload bytes stripped. -/
inductive InstrKind
  | initK
  | createK (envelopeID : Nat)
deriving DecidableEq

def SolInstruction.kind : SolInstruction → InstrKind
  | .initUserState => .initK
  | .create i _ => .createK i

/-- `CreateEnvelopeRequest` (part_004).  `userAddress` is unused by the
payload logic modelled here; `allowedAddress = none` stands for a nil or
empty allowed-address field (both rejected alike), `some pk` for a valid
base58 string decoding to `pk`. -/
structure CreateEnvelopeRequest where
  envelopeType : String
  totalAmount : Nat
  totalUsers : Nat
  expiryHours : Nat
  allowedAddress : Option Pubkey
deriving DecidableEq

/-- The create-instruction switch of `Client.HandleCreateEnvelope` (part_004):
dispatch on the envelope type string to the unified builder; any other string
is the handler's invalid-envelope-type response. -/
def handleCreateSwitch (req : CreateEnvelopeRequest) : Except String (List Nat) :=
  if req.envelopeType = "direct_fixed" then
    buildCreateEnvelopeData "direct_fixed" req.totalAmount req.totalUsers
      req.expiryHours req.allowedAddress
  else if req.envelopeType = "group_fixed" then
    buildCreateEnvelopeData "group_fixed" req.totalAmount req.totalUsers
      req.expiryHours none
  else if req.envelopeType = "group_random" then
    buildCreateEnvelopeData "group_random" req.totalAmount req.totalUsers
      req.expiryHours none
  else .error ("Invalid envelope_type: " ++ req.envelopeType)

/-- Instruction assembly of `Client.HandleCreateEnvelope` (part_004): with
`ex` the user-state existence check result, the predicted next envelope id is
`lastEnvelopeID + 1` (0 when the account is absent), an init-user-state
instruction is prepended exactly when the account is absent, and the create
instruction carries the predicted id. -/
def handleCreateAssemble (req : CreateEnvelopeRequest) (ex : Bool × Nat) :
    Except String (List SolInstruction × Nat) :=
  match handleCreateSwitch req with
  | .error e => .error e
  | .ok data =>
      .ok ((if ex.1 then [] else [.initUserState]) ++
          [.create ((if ex.1 then ex.2 else 0) + 1) data],
        (if ex.1 then ex.2 else 0) + 1)

/-- `Client.HandleCreateEnvelope` (part_004), from request validation to the
assembled instruction list: field validation, the DirectFixed checks
(allowed address present, total users exactly 1), then the user-state
existence check and instruction assembly.  Errors are the handler's failure
responses. -/
def handleCreateEnvelope (req : CreateEnvelopeRequest)
    (acct : Option (List Nat)) : Except String (List SolInstruction × Nat) :=
  if req.envelopeType = "" then .error "envelope_type is required"
  else if req.totalAmount = 0 then .error "total_amount must be greater than 0"
  else if req.totalUsers = 0 then .error "total_users must be greater than 0"
  else if req.envelopeType = "direct_fixed" ∧ req.allowedAddress = none then
    .error "DirectFixed requires allowed_address"
  else if req.envelopeType = "direct_fixed" ∧ req.totalUsers ≠ 1 then
    .error "DirectFixed must have total_users = 1"
  else
    handleCreateAssemble req (checkUserStateExists acct)

/- ---------------------------------------------------------------------- -/
/- Signed-transaction submission (part_000 / usdc_client.go).             -/
/- ---------------------------------------------------------------------- -/

/-- A parsed ledger transaction, reduced to its signature list (64-byte
entries); the message is irrelevant to the submission check. -/
structure SolTransaction where
  signatures : List (List Nat)
deriving DecidableEq

/-- The well-defined all-zero placeholder signature. -/
def placeholderSig : List Nat := List.replicate 64 0

/-- `SolChain.SendSignedTransaction` / `SubmitSignedTransaction`, from the
outcome of the library's transaction unmarshal onward: a parse failure is an
error, an empty signature list is rejected with "transaction is not signed",
and otherwise the transaction is handed to the ledger (the `.ok` result). -/
def sendSignedTransaction (parsed : Except String SolTransaction) :
    Except String SolTransaction :=
  match parsed with
  | .error e => .error ("failed to unmarshal transaction: " ++ e)
  | .ok tx =>
      if tx.signatures.length = 0 then .error "transaction is not signed"
      else .ok tx

/- ---------------------------------------------------------------------- -/
/- Error classification (errors.go section 1).                            -/
/- ---------------------------------------------------------------------- -/

/-- `ProgramErrors`: the fixed code table from the Rust program. -/
def ProgramErrors (code : Nat) : Option String :=
  match code with
  | 6000 => some "InvalidOwner - You are not the owner of this envelope"
  | 6001 => some "AlreadyClaimed - You have already claimed this envelope"
  | 6002 => some "NotAllowed - You are not allowed to claim this envelope"
  | 6003 => some "QuotaFull - Maximum claimers reached"
  | 6004 => some "Expired - Envelope has expired"
  | 6005 => some "NotExpired - Envelope not expired yet (cannot refund)"
  | 6006 => some "ExceedMaxCreate - Amount exceeds maximum allowed (10 SOL)"
  | 6007 => some "NotExpired - Envelope not expired yet"
  | 6008 => some "MathOverflow - Math calculation overflow"
  | 6009 => some "InsufficientFunds - Insufficient funds in envelope"
  | 6010 => some "NothingToRefund - Nothing to refund"
  | _ => none

/-- Whether `pat` is a prefix of `s` (by character). -/
def listIsPrefix : List Char → List Char → Bool
  | [], _ => true
  | _ :: _, [] => false
  | p :: ps, c :: cs => p == c && listIsPrefix ps cs

/-- `strings.Contains` on character lists. -/
def containsSub : List Char → List Char → Bool
  | [], pat => listIsPrefix pat []
  | s@(_ :: rest), pat => listIsPrefix pat s || containsSub rest pat

/-- `strings.Contains s pat`. -/
def sContains (s pat : String) : Bool :=
  containsSub s.data pat.data

/-- The RE2 `\s` character class: tab, newline, form feed, carriage return,
space. -/
def isWsChar (c : Char) : Bool :=
  c == ' ' || c == '\t' || c == '\n' || c == '\r' || c.toNat == 12

/-- The RE2 `[0-9a-fA-F]` class. -/
def isHexChar (c : Char) : Bool :=
  c.isDigit || ('a' ≤ c && c ≤ 'f') || ('A' ≤ c && c ≤ 'F')

/-- Decimal digit characters to a number. -/
def digitsToNat (ds : List Char) : Nat :=
  ds.foldl (fun a c => a * 10 + (c.toNat - 48)) 0

/-- The value of one hex digit character. -/
def hexDigitVal (c : Char) : Nat :=
  if c.isDigit then c.toNat - 48
  else if 'a' ≤ c && c ≤ 'f' then c.toNat - 87
  else c.toNat - 55

/-- Hex digit characters to a number. -/
def hexToNat (ds : List Char) : Nat :=
  ds.foldl (fun a c => a * 16 + hexDigitVal c) 0

/-- Match, at the head of `s`, one of the decimal patterns used by
`ExtractErrorCode` method 2: the literal `lit`, then `\s*`, then (when
`quoted`) a double quote, then `(\d+)` (greedy), then (when `quoted`) a
closing double quote.  Returns the captured number. -/
def matchPatAt (lit : List Char) (quoted : Bool) (s : List Char) : Option Nat :=
  if listIsPrefix lit s then
    let r1 := (s.drop lit.length).dropWhile isWsChar
    let r2 := if quoted then
        match r1 with
        | '"' :: t => some t
        | _ => none
      else some r1
    match r2 with
    | none => none
    | some r =>
        let ds := r.takeWhile Char.isDigit
        if ds.isEmpty then none
        else if quoted then
          match r.drop ds.length with
          | '"' :: _ => some (digitsToNat ds)
          | _ => none
        else some (digitsToNat ds)
  else none

/-- Leftmost match of a method-2 decimal pattern
(`regexp.FindStringSubmatch`). -/
def findPatNum (lit : List Char) (quoted : Bool) : List Char → Option Nat
  | [] => matchPatAt lit quoted []
  | s@(_ :: rest) => (matchPatAt lit quoted s).orElse fun _ =>
      findPatNum lit quoted rest

/-- Match, at the head of `s`, the method-3 hex pattern
`custom program error: 0x([0-9a-fA-F]+)`. -/
def matchHexAt (s : List Char) : Option Nat :=
  let lit := "custom program error: 0x".data
  if listIsPrefix lit s then
    let r := s.drop lit.length
    let ds := r.takeWhile isHexChar
    if ds.isEmpty then none else some (hexToNat ds)
  else none

/-- Leftmost match of the method-3 hex pattern. -/
def findHexNum : List Char → Option Nat
  | [] => matchHexAt []
  | s@(_ :: rest) => (matchHexAt s).orElse fun _ => findHexNum rest

/-- The five method-2 pattern literals, in source order, with their quoting
flag. -/
def method2Patterns : List (List Char × Bool) :=
  [("\"Custom\":".data, false),
   ("\"Custom\":".data, true),
   ("Custom:".data, false),
   ("error code:".data, false),
   ("Error Number:".data, false)]

/-- Try the method-2 patterns in order; a match whose digits exceed the Go
`int` range (`strconv.Atoi` failure) falls through to the next pattern. -/
def tryMethod2 : List (List Char × Bool) → List Char → Option Nat
  | [], _ => none
  | (lit, quoted) :: rest, s =>
      match findPatNum lit quoted s with
      | some n => if n < 9223372036854775808 then some n else tryMethod2 rest s
      | none => tryMethod2 rest s

/-- `ExtractErrorCode`, with the outcome of method 1 (the JSON
`"err":`-fragment parse, a stdlib `encoding/json` call) supplied as `m1`;
when the error string does not contain `"err":` the source skips method 1
entirely, so `m1 = none` is its faithful outcome there.  Methods 2 (five
decimal regex patterns) and 3 (the hex pattern, subject to the
`strconv.ParseInt` 64-bit range check) follow in source order. -/
def extractErrorCodeAux (m1 : Option Nat) (s : String) : Option Nat :=
  match m1 with
  | some c => some c
  | none =>
      match tryMethod2 method2Patterns s.data with
      | some n => some n
      | none =>
          match findHexNum s.data with
          | some n => if n < 9223372036854775808 then some n else none
          | none => none

/-- The message `ParseSolanaError` returns for an expired blockhash. -/
def blockhashExpiredMsg : String :=
  "Transaction expired. The blockhash is no longer valid. Please create a new transaction and try again."

/-- `ParseSolanaError`, with the method-1 JSON outcome supplied as `m1`:
the blockhash-expiry check runs first, then code extraction with the table
lookup, then the simulation-failed and insufficient-funds checks, then
truncation of long raw text. -/
def parseSolanaErrorAux (m1 : Option Nat) (s : String) : String :=
  if sContains s "BlockhashNotFound" || sContains s "Blockhash not found" then
    blockhashExpiredMsg
  else
    match extractErrorCodeAux m1 s with
    | some code =>
        match ProgramErrors code with
        | some msg => msg
        | none => "Custom program error code: " ++ toString code
    | none =>
        if sContains s "simulation failed" then
          "Transaction simulation failed. Check program logs for details."
        else if sContains s "insufficient funds" then
          "Insufficient SOL balance to pay for transaction"
        else if s.length > 300 then (s.take 300) ++ "..."
        else s

/- ---------------------------------------------------------------------- -/
/- Confirmation polling (service.go WaitForConfirmation).                 -/
/- ---------------------------------------------------------------------- -/

/-- One `GetSignatureStatuses` outcome: `unavailable` covers an RPC error, a
nil response and an absent status entry; `status` carries the confirmation
status string and whether the transaction-level error field is set. -/
inductive PollOutcome
  | unavailable
  | status (confirmation : String) (hasErr : Bool)
deriving DecidableEq

/-- The result of the polling loop. -/
inductive WaitResult
  | confirmedOk
  | txFailed
  | timedOut
deriving DecidableEq

/-- A poll outcome on which the source loop keeps waiting. -/
def pollPending : PollOutcome → Bool
  | .unavailable => true
  | .status c hasErr =>
      !(c == "confirmed" || c == "finalized") && !hasErr

/-- The retry loop of `WaitForConfirmation`: at attempt `i` consult the
oracle; a confirmed/finalized status returns success or failure according to
the error field, a set error field returns failure, anything else sleeps and
retries until the attempt budget is exhausted.  The second component counts
the attempts performed. -/
def waitLoop (oracle : Nat → PollOutcome) (i : Nat) : Nat → WaitResult × Nat
  | 0 => (.timedOut, 0)
  | fuel + 1 =>
      match oracle i with
      | .unavailable =>
          let r := waitLoop oracle (i + 1) fuel
          (r.1, r.2 + 1)
      | .status c hasErr =>
          if c == "confirmed" || c == "finalized" then
            (if hasErr then .txFailed else .confirmedOk, 1)
          else if hasErr then (.txFailed, 1)
          else
            let r := waitLoop oracle (i + 1) fuel
            (r.1, r.2 + 1)

/-- `WaitForConfirmation`: `maxRetries = timeoutSeconds / 2` (one poll every
2 seconds), then the loop; running out of retries is the timeout result. -/
def waitForConfirmation (oracle : Nat → PollOutcome) (timeoutSeconds : Nat) :
    WaitResult × Nat :=
  waitLoop oracle 0 (timeoutSeconds / 2)

/- ---------------------------------------------------------------------- -/
/- Helper instances and lemmas.                                           -/
/- ---------------------------------------------------------------------- -/

instance {ε α : Type} [DecidableEq ε] [DecidableEq α] : DecidableEq (Except ε α) :=
  fun x y =>
    match x, y with
    | .error a, .error b => decidable_of_iff (a = b) (by simp)
    | .ok a, .ok b => decidable_of_iff (a = b) (by simp)
    | .error _, .ok _ => isFalse (by simp)
    | .ok _, .error _ => isFalse (by simp)

/-- The computed create discriminator, evaluated. -/
lemma anchorCreate_bytes :
    getAnchorDiscriminator "create" = [24, 30, 200, 40, 5, 28, 7, 119] := by
  decide

/-- Taking 8 bytes off a payload that starts with an 8-byte discriminator
returns the discriminator. -/
lemma take8_append (d rest : List Nat) (hd : d.length = 8) :
    (d ++ rest).take 8 = d := by
  rw [← hd, List.take_left]

/-- A fixed 32-byte test identity. -/
def pk9 : Pubkey := List.replicate 32 9

/- ---------------------------------------------------------------------- -/
/- Claim C1.                                                              -/
/- ---------------------------------------------------------------------- -/

/-- C1 (counterexample).  The claim says every create-envelope builder emits
discriminator, tag, the DirectFixed 32-byte identity, then amount, claimer
slots and expiry (65 bytes for DirectFixed).  The simplified DirectFixed
builder `BuildCreateDirectFixedInstruction` emits 57 bytes (no slots field),
and `BuildCreateGroupFixedInstruction` for 2 users at 3 per user (total
amount 6) emits total_users before amount_per_user, which differs from the
claimed amount-then-slots payload. -/
theorem c1_counterexample_simplified_builders :
    (buildCreateDirectFixedData pk9 5 7).length = 57 ∧
    (createPayloadSpec 0 (some pk9) 5 1 7).length = 65 ∧
    buildCreateGroupFixedData 2 3 4 ≠ createPayloadSpec 1 none 6 2 4 := by
  decide

/-- C1 (amended).  The two unified builders
(`USDCEnvelopeClient.BuildCreateEnvelopeInstruction` and the package-level
`BuildCreateEnvelopeInstruction`) emit exactly the claimed layout;
among the simplified part_003 builders only the GroupRandom one does, while
the DirectFixed ones drop the slots field and the GroupFixed one emits
total_users then amount_per_user. -/
theorem c1_create_payload_layouts :
    (∀ pk amount users expiry,
      usdcBuildCreateEnvelopeData ⟨⟨.directFixed, some pk⟩, amount, users, expiry⟩ =
        .ok (createPayloadSpec 0 (some pk) amount users expiry)) ∧
    (∀ alw amount users expiry,
      usdcBuildCreateEnvelopeData ⟨⟨.groupFixed, alw⟩, amount, users, expiry⟩ =
        .ok (createPayloadSpec 1 none amount users expiry)) ∧
    (∀ alw amount users expiry,
      usdcBuildCreateEnvelopeData ⟨⟨.groupRandom, alw⟩, amount, users, expiry⟩ =
        .ok (createPayloadSpec 2 none amount users expiry)) ∧
    (∀ pk amount users expiry,
      buildCreateEnvelopeData "direct_fixed" amount users expiry (some pk) =
        .ok (createPayloadSpec 0 (some pk) amount users expiry)) ∧
    (∀ alw amount users expiry,
      buildCreateEnvelopeData "group_fixed" amount users expiry alw =
        .ok (createPayloadSpec 1 none amount users expiry)) ∧
    (∀ alw amount users expiry,
      buildCreateEnvelopeData "group_random" amount users expiry alw =
        .ok (createPayloadSpec 2 none amount users expiry)) ∧
    (∀ user amount expiry,
      buildCreateInstructionData user amount expiry =
        getAnchorDiscriminator "create" ++ 0 :: user ++ le64 amount ++ le64 expiry) ∧
    (∀ pk amount expiry,
      buildCreateDirectFixedData pk amount expiry =
        getAnchorDiscriminator "create" ++ 0 :: pk ++ le64 amount ++ le64 expiry) ∧
    (∀ users perUser expiry,
      buildCreateGroupFixedData users perUser expiry =
        getAnchorDiscriminator "create" ++ 1 :: (le64 users ++ le64 perUser ++ le64 expiry)) ∧
    (∀ amount claimers expiry,
      buildCreateGroupRandomData amount claimers expiry =
        createPayloadSpec 2 none amount claimers expiry) := by
  have hdisc : ([24, 30, 200, 40, 5, 28, 7, 119] : List Nat) =
      getAnchorDiscriminator "create" := anchorCreate_bytes.symm
  have hcd : CreateDisc = getAnchorDiscriminator "create" := by decide
  refine ⟨?_, ?_, ?_, ?_, ?_, ?_, ?_, ?_, ?_, ?_⟩ <;>
    intros <;>
    simp [usdcBuildCreateEnvelopeData, buildCreateEnvelopeData,
      buildCreateInstructionData, buildCreateDirectFixedData,
      buildCreateGroupFixedData, buildCreateGroupRandomData,
      createPayloadSpec, EnvelopeType.val, DiscriminatorCreate, hcd, ← hdisc]

/- ---------------------------------------------------------------------- -/
/- Claim C2.                                                              -/
/- ---------------------------------------------------------------------- -/

/-- C2.  For every operation the 8-byte discriminator at the start of the
encoded instruction is the first 8 bytes of sha256 of the ASCII string
"global:" followed by the operation name; in particular the hard-coded
create discriminator bytes in the package-level builder equal
sha256("global:create")[0..8], and the two discriminator helpers agree. -/
theorem c2_discriminators_sha256 :
    getAnchorDiscriminator "create" = [24, 30, 200, 40, 5, 28, 7, 119] ∧
    getDiscriminator "global:create" = getAnchorDiscriminator "create" ∧
    getDiscriminator "global:init_user_state" = getAnchorDiscriminator "init_user_state" ∧
    getDiscriminator "global:claim" = getAnchorDiscriminator "claim" ∧
    getDiscriminator "global:refund" = getAnchorDiscriminator "refund" ∧
    buildInitUserStateData = getAnchorDiscriminator "init_user_state" ∧
    buildClaimData = getAnchorDiscriminator "claim" ∧
    buildRefundData = getAnchorDiscriminator "refund" ∧
    buildCancelData = getAnchorDiscriminator "cancel" ∧
    buildCloseData = getAnchorDiscriminator "close" ∧
    (∀ p out, usdcBuildCreateEnvelopeData p = .ok out →
      out.take 8 = getAnchorDiscriminator "create") ∧
    (∀ t amount users expiry alw out,
      buildCreateEnvelopeData t amount users expiry alw = .ok out →
      out.take 8 = getAnchorDiscriminator "create") := by
  have hlen : (getAnchorDiscriminator "create").length = 8 := by decide
  have hlit : ([24, 30, 200, 40, 5, 28, 7, 119] : List Nat).length = 8 := by decide
  refine ⟨anchorCreate_bytes, by decide, by decide, by decide, by decide,
    rfl, rfl, rfl, rfl, rfl, ?_, ?_⟩
  · intro p out h
    unfold usdcBuildCreateEnvelopeData at h
    split at h <;> simp_all <;> subst h <;>
      exact take8_append DiscriminatorCreate _ (by decide)
  · intro t amount users expiry alw out h
    unfold buildCreateEnvelopeData at h
    split at h
    · split at h <;> simp_all <;> subst h <;>
        exact (take8_append [24, 30, 200, 40, 5, 28, 7, 119] _ (by decide)).trans
          anchorCreate_bytes.symm
    · split at h
      · simp_all
        subst h
        exact (take8_append [24, 30, 200, 40, 5, 28, 7, 119] _ (by decide)).trans
          anchorCreate_bytes.symm
      · split at h
        · simp_all
          subst h
          exact (take8_append [24, 30, 200, 40, 5, 28, 7, 119] _ (by decide)).trans
            anchorCreate_bytes.symm
        · simp_all

/-- C2 (witness): the discriminator-prefix conjuncts applied to a concrete
GroupFixed build on each create path. -/
theorem c2_discriminators_sha256_witness :
    (DiscriminatorCreate ++ 1 :: (le64 1 ++ le64 2 ++ le64 3)).take 8 =
      getAnchorDiscriminator "create" ∧
    ([24, 30, 200, 40, 5, 28, 7, 119] ++ 1 :: (le64 1 ++ le64 2 ++ le64 3)).take 8 =
      getAnchorDiscriminator "create" :=
  ⟨c2_discriminators_sha256.2.2.2.2.2.2.2.2.2.2.1
      ⟨⟨.groupFixed, none⟩, 1, 2, 3⟩ _ rfl,
    c2_discriminators_sha256.2.2.2.2.2.2.2.2.2.2.2 "group_fixed" 1 2 3 none _ rfl⟩

/- ---------------------------------------------------------------------- -/
/- Claim C3.                                                              -/
/- ---------------------------------------------------------------------- -/

/-- A 140-byte envelope account image with byte value `i mod 256` at index
`i`, and the variant tag at index 48 forced to 0 or 1. -/
def baseBytes : List Nat := (List.range 140).map (fun i => i % 256)

def envTag0 : List Nat := baseBytes.set 48 0

def envTag1 : List Nat := baseBytes.set 48 1

set_option maxRecDepth 100000 in
/-- C3.  The decoder reads total_amount at byte offset 81 when the variant
tag is 0 but at offset 88 when it is 1 (or 2): on two account images that
agree on every byte except the tag, the decoded total_amount comes from
different byte regions, contradicting the claimed (and the source comment's)
single constant offset. -/
theorem c3_total_amount_offset_depends_on_tag :
    envTag0.take 48 = envTag1.take 48 ∧
    envTag0.drop 49 = envTag1.drop 49 ∧
    (parseEnvelopeData envTag0).map (fun e => e.map (fun r => r.totalAmount)) =
      some (.ok 6365651522798441041) ∧
    (parseEnvelopeData envTag1).map (fun e => e.map (fun r => r.totalAmount)) =
      some (.ok 6872032732664977752) ∧
    leU64 ((baseBytes.drop 81).take 8) = 6365651522798441041 ∧
    leU64 ((baseBytes.drop 88).take 8) = 6872032732664977752 ∧
    (6365651522798441041 : Nat) ≠ 6872032732664977752 := by
  decide

/- ---------------------------------------------------------------------- -/
/- Claim C4.                                                              -/
/- ---------------------------------------------------------------------- -/

/-- A 120-byte envelope account image with variant tag 1: it passes the
decoder's 120-byte minimum-length guard, yet the expiry read at bytes
120..128 is out of range. -/
def bad120tag1 : List Nat := List.replicate 48 0 ++ 1 :: List.replicate 71 0

/-- A 121-byte envelope account image with variant tag 0: it passes the
guard, yet the is_cancelled read at index 121 is out of range. -/
def bad121tag0 : List Nat := List.replicate 48 0 ++ 0 :: List.replicate 72 0

set_option maxRecDepth 100000 in
/-- C4.  The user-state and claim-record decoders are total (no input can
reach an out-of-range access, modelled as `none`), and all three decoders
turn an undersized record into a decode error; but the envelope decoder's
120-byte guard does not cover its own later reads: a 120-byte record with
variant tag 1 and a 121-byte record with variant tag 0 both drive it past
the end of the data (a Go slice-bounds panic, `none` here). -/
theorem c4_decoder_bounds :
    (∀ d : List Nat, (parseUserStateData d).isSome = true) ∧
    (∀ d : List Nat, (parseClaimRecordData d).isSome = true) ∧
    (∀ d : List Nat, parseUserStateData (d.take 47) =
      some (.error ("invalid user state data length: " ++
        toString (d.take 47).length))) ∧
    (∀ d : List Nat, parseClaimRecordData (d.take 63) =
      some (.error ("invalid claim record data length: " ++
        toString (d.take 63).length))) ∧
    (∀ d : List Nat, parseEnvelopeData (d.take 119) =
      some (.error ("invalid envelope data length: " ++
        toString (d.take 119).length))) ∧
    bad120tag1.length = 120 ∧
    parseEnvelopeData bad120tag1 = none ∧
    bad121tag0.length = 121 ∧
    parseEnvelopeData bad121tag0 = none := by
  refine ⟨?_, ?_, ?_, ?_, ?_, by decide, by decide, by decide, by decide⟩
  · intro d
    unfold parseUserStateData
    split
    · rfl
    · next hlen =>
      have h48 : 48 ≤ d.length := Nat.le_of_not_lt hlen
      have e1 : goSlice d 8 (8 + 32) = some ((d.take 40).drop 8) := by
        unfold goSlice
        rw [if_pos ⟨by omega, by omega⟩]
      have e2 : goSlice d 40 (40 + 8) = some ((d.take 48).drop 40) := by
        unfold goSlice
        rw [if_pos ⟨by omega, by omega⟩]
      simp [e1, e2]
  · intro d
    unfold parseClaimRecordData
    split
    · rfl
    · next hlen =>
      have h64 : 64 ≤ d.length := Nat.le_of_not_lt hlen
      have e1 : goSlice d 8 (8 + 32) = some ((d.take 40).drop 8) := by
        unfold goSlice
        rw [if_pos ⟨by omega, by omega⟩]
      have e2 : goSlice d 40 (40 + 8) = some ((d.take 48).drop 40) := by
        unfold goSlice
        rw [if_pos ⟨by omega, by omega⟩]
      have e3 : goSlice d 48 (48 + 8) = some ((d.take 56).drop 48) := by
        unfold goSlice
        rw [if_pos ⟨by omega, by omega⟩]
      have e4 : goSlice d 56 (56 + 8) = some ((d.take 64).drop 56) := by
        unfold goSlice
        rw [if_pos ⟨by omega, by omega⟩]
      simp [e1, e2, e3, e4]
  · intro d
    unfold parseUserStateData
    rw [if_pos]
    have := List.length_take 47 d
    omega
  · intro d
    unfold parseClaimRecordData
    rw [if_pos]
    have := List.length_take 63 d
    omega
  · intro d
    unfold parseEnvelopeData
    rw [if_pos]
    have := List.length_take 119 d
    omega

/- ---------------------------------------------------------------------- -/
/- Claim C5.                                                              -/
/- ---------------------------------------------------------------------- -/

/-- C5.  Whenever the create handler succeeds: if the user-state check found
an account with last envelope id `n`, the transaction holds exactly one
create instruction with predicted id `n + 1`; if it found none, the
transaction holds exactly an init-user-state instruction followed by a
create instruction with predicted id 1. -/
theorem c5_predicted_envelope_id :
    (∀ req acct n, checkUserStateExists acct = (true, n) →
      ∀ instrs nid, handleCreateEnvelope req acct = .ok (instrs, nid) →
        nid = n + 1 ∧ instrs.map SolInstruction.kind = [.createK (n + 1)]) ∧
    (∀ req acct m, checkUserStateExists acct = (false, m) →
      ∀ instrs nid, handleCreateEnvelope req acct = .ok (instrs, nid) →
        nid = 1 ∧ instrs.map SolInstruction.kind = [.initK, .createK 1]) := by
  constructor
  · intro req acct n hex instrs nid h
    unfold handleCreateEnvelope at h
    rw [hex] at h
    split at h
    case isTrue => exact Except.noConfusion h
    split at h
    case isTrue => exact Except.noConfusion h
    split at h
    case isTrue => exact Except.noConfusion h
    split at h
    case isTrue => exact Except.noConfusion h
    split at h
    case isTrue => exact Except.noConfusion h
    unfold handleCreateAssemble at h
    split at h
    all_goals first
      | exact Except.noConfusion h
      | (simp at h
         obtain ⟨h1, h2⟩ := h
         subst h1
         subst h2
         simp [SolInstruction.kind])
  · intro req acct m hex instrs nid h
    unfold handleCreateEnvelope at h
    rw [hex] at h
    split at h
    case isTrue => exact Except.noConfusion h
    split at h
    case isTrue => exact Except.noConfusion h
    split at h
    case isTrue => exact Except.noConfusion h
    split at h
    case isTrue => exact Except.noConfusion h
    split at h
    case isTrue => exact Except.noConfusion h
    unfold handleCreateAssemble at h
    split at h
    all_goals first
      | exact Except.noConfusion h
      | (simp at h
         obtain ⟨h1, h2⟩ := h
         subst h1
         subst h2
         simp [SolInstruction.kind])

/-- A concrete GroupFixed create request: 5 units over 2 claimers, 3-hour
expiry. -/
def reqGF : CreateEnvelopeRequest :=
  { envelopeType := "group_fixed", totalAmount := 5, totalUsers := 2,
    expiryHours := 3, allowedAddress := none }

/-- A user-state account image whose last envelope id is 7. -/
def acct7 : List Nat := List.replicate 40 0 ++ le64 7

/-- The payload the unified builder produces for `reqGF`. -/
def gfPayload : List Nat :=
  [24, 30, 200, 40, 5, 28, 7, 119] ++ 1 :: (le64 5 ++ le64 2 ++ le64 3)

/-- C5 (witness): the id-prediction theorem applied to `reqGF` against a
user-state account with last id 7 (one create instruction, id 8) and against
an absent account (init then create, id 1). -/
theorem c5_predicted_envelope_id_witness :
    (8 : Nat) = 7 + 1 ∧
    ([SolInstruction.create 8 gfPayload].map SolInstruction.kind) =
      [InstrKind.createK 8] ∧
    (1 : Nat) = 1 ∧
    ([SolInstruction.initUserState, SolInstruction.create 1 gfPayload].map
        SolInstruction.kind) = [InstrKind.initK, InstrKind.createK 1] := by
  have hA := c5_predicted_envelope_id.1 reqGF (some acct7) 7 (by decide)
    [SolInstruction.create 8 gfPayload] 8 (by decide)
  have hB := c5_predicted_envelope_id.2 reqGF none 0 (by decide)
    [SolInstruction.initUserState, SolInstruction.create 1 gfPayload] 1
    (by decide)
  exact ⟨hA.1, hA.2, hB.1, hB.2⟩

/- ---------------------------------------------------------------------- -/
/- Claim C6.                                                              -/
/- ---------------------------------------------------------------------- -/

/-- C6 (counterexample).  The claim says no create path ever encodes a
DirectFixed create instruction with claimer slots other than 1.  The USDC
client's builder performs no such validation: with 5 claimer slots it
succeeds and encodes slots 5 into the payload. -/
theorem c6_counterexample_usdc_encodes_slots_5 :
    usdcBuildCreateEnvelopeData ⟨⟨.directFixed, some pk9⟩, 100, 5, 24⟩ =
      .ok ([24, 30, 200, 40, 5, 28, 7, 119] ++ 0 :: pk9 ++
        (le64 100 ++ le64 5 ++ le64 24)) ∧
    (usdcBuildCreateEnvelopeData ⟨⟨.directFixed, some pk9⟩, 100, 5, 24⟩).isOk =
      true := by
  constructor
  · show Except.ok ((DiscriminatorCreate ++ [EnvelopeType.val .directFixed]) ++
      pk9 ++ (le64 100 ++ le64 5 ++ le64 24)) = _
    rw [show DiscriminatorCreate = [24, 30, 200, 40, 5, 28, 7, 119] from
      anchorCreate_bytes]
    simp [EnvelopeType.val]
  · decide

/-- C6 (amended).  The part_004 HTTP handler rejects any DirectFixed create
request whose total claimer slots differ from 1 before building an
instruction; the USDC client's `BuildCreateEnvelopeInstruction` path performs
no slots validation and encodes whatever slots value it is given. -/
theorem c6_direct_fixed_slot_validation :
    (∀ req acct, req.envelopeType = "direct_fixed" → req.totalUsers ≠ 1 →
      (handleCreateEnvelope req acct).isOk = false) ∧
    (∀ pk amount users expiry,
      usdcBuildCreateEnvelopeData ⟨⟨.directFixed, some pk⟩, amount, users, expiry⟩ =
        .ok (DiscriminatorCreate ++ 0 :: pk ++
          (le64 amount ++ le64 users ++ le64 expiry))) := by
  constructor
  · intro req acct h1 h2
    unfold handleCreateEnvelope
    rw [h1]
    by_cases hamt : req.totalAmount = 0
    · simp [hamt, Except.isOk, Except.toBool]
    · by_cases husers : req.totalUsers = 0
      · simp [hamt, husers, Except.isOk, Except.toBool]
      · by_cases halw : req.allowedAddress = none
        · simp [hamt, husers, halw, Except.isOk, Except.toBool]
        · simp [hamt, husers, halw, h2, Except.isOk, Except.toBool]
  · intro pk amount users expiry
    simp [usdcBuildCreateEnvelopeData, EnvelopeType.val]

/-- C6 (witness): the validation half applied to a concrete DirectFixed
request with 5 claimer slots, and the builder half at concrete arguments. -/
theorem c6_direct_fixed_slot_validation_witness :
    (handleCreateEnvelope
      { envelopeType := "direct_fixed", totalAmount := 100, totalUsers := 5,
        expiryHours := 24, allowedAddress := some pk9 } none).isOk = false ∧
    usdcBuildCreateEnvelopeData ⟨⟨.directFixed, some pk9⟩, 100, 1, 24⟩ =
      .ok (DiscriminatorCreate ++ 0 :: pk9 ++
        (le64 100 ++ le64 1 ++ le64 24)) :=
  ⟨c6_direct_fixed_slot_validation.1 _ none rfl (by decide),
    c6_direct_fixed_slot_validation.2 pk9 100 1 24⟩

/- ---------------------------------------------------------------------- -/
/- Claim C7.                                                              -/
/- ---------------------------------------------------------------------- -/

/-- C7 (counterexample).  The claim says a transaction whose signature slots
are all still the all-zero placeholder is rejected before anything is sent.
The submission check only counts signatures: a parsed transaction whose only
signature is the 64-byte all-zero placeholder is accepted and handed to the
ledger. -/
theorem c7_counterexample_placeholder_accepted :
    sendSignedTransaction (.ok ⟨[placeholderSig]⟩) = .ok ⟨[placeholderSig]⟩ ∧
    placeholderSig = List.replicate 64 0 := by
  constructor
  · rfl
  · rfl

/-- C7 (amended).  Submission fails exactly when the transaction parse fails
or the parsed signature list is empty; signature contents are never
inspected, so any transaction with at least one signature slot — placeholder
or not — is submitted. -/
theorem c7_submission_signature_check :
    (∀ e, (sendSignedTransaction (.error e)).isOk = false) ∧
    (∀ tx : SolTransaction, tx.signatures = [] →
      (sendSignedTransaction (.ok tx)).isOk = false) ∧
    (∀ tx : SolTransaction, tx.signatures ≠ [] →
      sendSignedTransaction (.ok tx) = .ok tx) := by
  refine ⟨fun e => rfl, ?_, ?_⟩
  · intro tx h
    simp [sendSignedTransaction, h, Except.isOk, Except.toBool]
  · intro tx h
    simp [sendSignedTransaction, h]

/-- C7 (witness): the submission characterization applied to a parse
failure, an empty signature list, and the placeholder-only transaction. -/
theorem c7_submission_signature_check_witness :
    (sendSignedTransaction (.error "bad wire bytes")).isOk = false ∧
    (sendSignedTransaction (.ok ⟨[]⟩)).isOk = false ∧
    sendSignedTransaction (.ok ⟨[placeholderSig]⟩) = .ok ⟨[placeholderSig]⟩ :=
  ⟨c7_submission_signature_check.1 "bad wire bytes",
    c7_submission_signature_check.2.1 ⟨[]⟩ rfl,
    c7_submission_signature_check.2.2 ⟨[placeholderSig]⟩ (by decide)⟩

/- ---------------------------------------------------------------------- -/
/- Claim C8.                                                              -/
/- ---------------------------------------------------------------------- -/

/-- C8.  On an error string with no blockhash-expiry wording, no `"err":`
JSON fragment (so the source skips extraction method 1) and no
decimal-pattern match, the leftmost hex `custom program error: 0x...` match
within the 64-bit range is the extracted code, and classification returns
the mapped table message, or the bare-code text for an unmapped code; in
particular `0x1772` yields 6002 and the not-allowed-to-claim message, and
the unmapped `0x270f` (9999) yields the bare code text. -/
theorem c8_hex_error_code_classification :
    (∀ s : String,
      sContains s "BlockhashNotFound" = false →
      sContains s "Blockhash not found" = false →
      sContains s "\"err\":" = false →
      tryMethod2 method2Patterns s.data = none →
      ∀ code, findHexNum s.data = some code →
        code < 9223372036854775808 →
        extractErrorCodeAux none s = some code ∧
        parseSolanaErrorAux none s =
          (match ProgramErrors code with
           | some msg => msg
           | none => "Custom program error code: " ++ toString code)) ∧
    findHexNum "custom program error: 0x1772".data = some 6002 ∧
    parseSolanaErrorAux none "custom program error: 0x1772" =
      "NotAllowed - You are not allowed to claim this envelope" ∧
    parseSolanaErrorAux none "custom program error: 0x270f" =
      "Custom program error code: 9999" ∧
    ProgramErrors 9999 = none := by
  refine ⟨?_, by decide, by decide, by decide, rfl⟩
  intro s hb1 hb2 herr hm2 code hhex hlt
  constructor
  · simp [extractErrorCodeAux, hm2, hhex, hlt]
  · simp [parseSolanaErrorAux, hb1, hb2, extractErrorCodeAux, hm2, hhex, hlt]

/-- C8 (witness): the classification theorem applied to the raw string
`custom program error: 0x1772`. -/
theorem c8_hex_error_code_classification_witness :
    extractErrorCodeAux none "custom program error: 0x1772" = some 6002 ∧
    parseSolanaErrorAux none "custom program error: 0x1772" =
      (match ProgramErrors 6002 with
       | some msg => msg
       | none => "Custom program error code: " ++ toString 6002) :=
  c8_hex_error_code_classification.1 "custom program error: 0x1772"
    (by decide) (by decide) (by decide) (by decide) 6002 (by decide) (by decide)

/- ---------------------------------------------------------------------- -/
/- Claim C9.                                                              -/
/- ---------------------------------------------------------------------- -/

/-- C9.  Any error string containing `BlockhashNotFound` or
`Blockhash not found` classifies to the fixed expired-blockhash message —
no matter what custom code could be extracted, because the expiry check runs
first — and that message is distinct from every mapped program-error message
and from the generic simulation-failed and insufficient-funds outcomes. -/
theorem c9_blockhash_precedence :
    (∀ (m1 : Option Nat) (s : String),
      sContains s "BlockhashNotFound" = true ∨
        sContains s "Blockhash not found" = true →
      parseSolanaErrorAux m1 s = blockhashExpiredMsg) ∧
    (∀ code, ProgramErrors code ≠ some blockhashExpiredMsg) ∧
    blockhashExpiredMsg ≠
      "Transaction simulation failed. Check program logs for details." ∧
    blockhashExpiredMsg ≠ "Insufficient SOL balance to pay for transaction" := by
  refine ⟨?_, ?_, by decide, by decide⟩
  · intro m1 s h
    unfold parseSolanaErrorAux
    rcases h with h | h <;> simp [h]
  · intro code h
    unfold ProgramErrors at h
    split at h <;> simp_all [blockhashExpiredMsg]

/-- C9 (witness): a string containing both the blockhash wording and a
custom program error code classifies to the expired message, even with a
method-1 extraction outcome supplied. -/
theorem c9_blockhash_precedence_witness :
    parseSolanaErrorAux (some 6002)
      "Blockhash not found; custom program error: 0x1772" =
      blockhashExpiredMsg :=
  c9_blockhash_precedence.1 (some 6002) _ (Or.inr (by decide))

/- ---------------------------------------------------------------------- -/
/- Claim C10.                                                             -/
/- ---------------------------------------------------------------------- -/

/-- The polling loop never performs more attempts than its fuel. -/
lemma waitLoop_count_le (oracle : Nat → PollOutcome) :
    ∀ fuel i, (waitLoop oracle i fuel).2 ≤ fuel := by
  intro fuel
  induction fuel with
  | zero => intro i; simp [waitLoop]
  | succ n ih =>
      intro i
      unfold waitLoop
      cases oracle i with
      | unavailable =>
          have := ih (i + 1)
          simp only []
          omega
      | status c he =>
          by_cases hc : (c == "confirmed" || c == "finalized") = true
          · simp [hc]
          · by_cases hhe : he
            · simp [hc, hhe]
            · have := ih (i + 1)
              simp only [hc, hhe, if_false]
              simp
              omega

/-- When every poll outcome is still pending, the loop exhausts its fuel and
times out, having used every attempt. -/
lemma waitLoop_pending_timeout (oracle : Nat → PollOutcome)
    (h : ∀ j, pollPending (oracle j) = true) :
    ∀ fuel i, waitLoop oracle i fuel = (.timedOut, fuel) := by
  intro fuel
  induction fuel with
  | zero => intro i; rfl
  | succ n ih =>
      intro i
      have hp := h i
      unfold pollPending at hp
      unfold waitLoop
      cases horacle : oracle i with
      | unavailable => simp [ih (i + 1)]
      | status c he =>
          rw [horacle] at hp
          simp only [Bool.and_eq_true, Bool.not_eq_true'] at hp
          simp [hp.1, hp.2, ih (i + 1)]

/-- C10.  For any non-negative timeout, polling performs at most
`timeoutSeconds / 2` attempts (one per 2-second delay), and when the remote
status never leaves pending it terminates with the timeout result after
exactly that many attempts. -/
theorem c10_polling_bounded :
    ∀ (oracle : Nat → PollOutcome) (timeoutSeconds : Nat),
      (waitForConfirmation oracle timeoutSeconds).2 ≤ timeoutSeconds / 2 ∧
      ((∀ j, pollPending (oracle j) = true) →
        waitForConfirmation oracle timeoutSeconds =
          (.timedOut, timeoutSeconds / 2)) :=
  fun oracle t =>
    ⟨waitLoop_count_le oracle (t / 2) 0,
     fun h => waitLoop_pending_timeout oracle h (t / 2) 0⟩

/-- C10 (witness): the bound applied to an oracle that never answers, with a
6-second timeout: exactly 3 attempts, then the timeout result. -/
theorem c10_polling_bounded_witness :
    waitForConfirmation (fun _ => PollOutcome.unavailable) 6 =
      (WaitResult.timedOut, 3) ∧
    (waitForConfirmation (fun _ => PollOutcome.unavailable) 6).2 ≤ 3 :=
  ⟨(c10_polling_bounded _ 6).2 (fun _ => rfl),
    (c10_polling_bounded _ 6).1⟩
